import Mathlib

/-!
Verification development for the varMT variant-ingestion pipeline.

The definitions below are a shallow embedding of the repository sources:

* `src/utils/db_utils.py` — the SQL statement texts and their upsert
  semantics over an explicit relational state (`DB`);
* `src/vcf2db.py` — `process_data`: per-record processing, batching,
  commit/rollback;
* `src/utils/gene_mapping.py` — `map_gene_symbols`;
* `src/utils/vep_utils.py` — `extract_rsid_from_csq`;
* `src/utils/csv_parser.py` — `validate_csv_data`;
* `src/queries/variant_queries.py` — the aggregated-frequency SELECT
  expressions.

Machine integers from PostgreSQL columns are modelled as `Int`/`Nat`
(values in the claims are far from any overflow boundary), strings as
`String`, NULLable columns as `Option`, and fallible Python execution as
`Except`.  A `psycopg2` `cursor.execute(query, args)` call substitutes the
argument tuple into the query text; when the number of arguments differs
from the number of placeholders in the query the call raises instead of
touching the database, which the execution functions model by counting
the literal placeholder occurrences of the query strings.
-/

namespace VarMT

set_option maxRecDepth 80000

/-- Count the occurrences of the percent-s placeholder marker in a
character list, the way the driver-side substitution consumes them. -/
def countPSAux : List Char → Nat
  | [] => 0
  | [_] => 0
  | c1 :: c2 :: rest2 =>
    if c1 = Char.ofNat 37 && c2 = Char.ofNat 115 then
      1 + countPSAux rest2
    else
      countPSAux (c2 :: rest2)

/-- Number of parameter placeholders in a SQL statement text. -/
def countPlaceholders (q : String) : Nat :=
  countPSAux q.data

/-- SQL text returned by `db_utils.insert_variant_location` (whitespace
normalized to single spaces). -/
def variantLocationInsertQuery : String :=
  "INSERT INTO variant_locations (chromosome, position, reference_allele, genome_version) VALUES (%s, %s, %s, %s) ON CONFLICT (chromosome, position, reference_allele, genome_version) DO UPDATE SET id = variant_locations.id RETURNING id"

/-- SQL text returned by `db_utils.insert_variant`. -/
def variantInsertQuery : String :=
  "INSERT INTO variants (variant_location_id, rs_id, alternate_allele) VALUES (%s, %s, %s) ON CONFLICT (variant_location_id, alternate_allele) DO UPDATE SET id = variants.id RETURNING id"

/-- SQL text returned by `db_utils.insert_collection`. -/
def collectionInsertQuery : String :=
  "INSERT INTO collections (sample_count) VALUES (%s) RETURNING id"

/-- SQL text returned by `db_utils.insert_variant_frequency`. -/
def variantFrequencyInsertQuery : String :=
  "INSERT INTO variant_frequencies (variant_id, collection_id, alternate_allele_count) VALUES (%s, %s, %s) ON CONFLICT (variant_id, collection_id) DO UPDATE SET alternate_allele_count = variant_frequencies.alternate_allele_count + EXCLUDED.alternate_allele_count"

/-- SQL text returned by `db_utils.insert_gene`. -/
def geneInsertQuery : String :=
  "INSERT INTO genes (symbol) VALUES (%s) ON CONFLICT (symbol) DO UPDATE SET id = genes.id RETURNING id"

/-- SQL text returned by `db_utils.insert_gene_location`. -/
def geneLocationInsertQuery : String :=
  "INSERT INTO gene_locations (gene_id, variant_location_id) VALUES (%s, %s) ON CONFLICT (gene_id, variant_location_id) DO NOTHING"

/-- A value passed to `cursor.execute`: integer, text, or SQL NULL
(Python `None`). -/
inductive SqlValue where
  | int : Int → SqlValue
  | text : String → SqlValue
  | null : SqlValue
deriving Repr, DecidableEq

/-- Errors raised on the Python side during ingestion. -/
inductive PyError where
  /-- `psycopg2` raises `TypeError` when the argument tuple length does not
  match the number of placeholders in the statement. -/
  | paramCountMismatch
  /-- A value of the wrong shape reached a column slot. -/
  | typeAdaptError
  /-- Python `IndexError` (e.g. `ac_info[i]` past the end of the list). -/
  | indexOutOfRange
  /-- Python `KeyError` (e.g. `record.info['AC']` with no AC field). -/
  | keyError
  /-- Forced failure injected by a test harness. -/
  | forcedFailure
deriving Repr, DecidableEq

/-- Row of `variant_locations` (schema from `db_utils.create_tables`). -/
structure VariantLocationRow where
  locId : Nat
  chromosome : String
  position : Int
  referenceAllele : String
  genomeVersion : String
deriving Repr, DecidableEq

/-- Row of `variants`. -/
structure VariantRow where
  varId : Nat
  variantLocationId : Nat
  rsId : Option String
  alternateAllele : String
deriving Repr, DecidableEq

/-- Row of `collections`. -/
structure CollectionRow where
  collId : Nat
  sampleCount : Int
deriving Repr, DecidableEq

/-- Row of `variant_frequencies`. -/
structure VariantFrequencyRow where
  freqId : Nat
  variantId : Nat
  collectionId : Nat
  alternateAlleleCount : Int
deriving Repr, DecidableEq

/-- Row of `genes`. -/
structure GeneRow where
  geneId : Nat
  symbol : String
deriving Repr, DecidableEq

/-- Row of `gene_locations`. -/
structure GeneLocationRow where
  geneLocId : Nat
  geneId : Nat
  variantLocationId : Nat
deriving Repr, DecidableEq

/-- The relational state created by `db_utils.create_tables`: the six
tables plus one SERIAL counter per table. -/
structure DB where
  variantLocations : List VariantLocationRow
  variants : List VariantRow
  collections : List CollectionRow
  variantFrequencies : List VariantFrequencyRow
  genes : List GeneRow
  geneLocations : List GeneLocationRow
  nextVariantLocationId : Nat
  nextVariantId : Nat
  nextCollectionId : Nat
  nextVariantFrequencyId : Nat
  nextGeneId : Nat
  nextGeneLocationId : Nat
deriving Repr, DecidableEq

/-- Freshly created database: empty tables, SERIAL counters at 1. -/
def emptyDB : DB :=
  ⟨[], [], [], [], [], [], 1, 1, 1, 1, 1, 1⟩

/-- The UNIQUE key of `variant_locations`:
(chromosome, position, reference_allele, genome_version). -/
def locKey (chrom : String) (pos : Int) (ref genome : String) :
    VariantLocationRow → Bool := fun r =>
  r.chromosome == chrom && r.position == pos &&
    r.referenceAllele == ref && r.genomeVersion == genome

/-- The UNIQUE key of `variants`: (variant_location_id, alternate_allele). -/
def varKey (locId : Nat) (alt : String) : VariantRow → Bool := fun r =>
  r.variantLocationId == locId && r.alternateAllele == alt

/-- The UNIQUE key of `variant_frequencies`: (variant_id, collection_id). -/
def freqKey (vid cid : Nat) : VariantFrequencyRow → Bool := fun r =>
  r.variantId == vid && r.collectionId == cid

/-- The UNIQUE key of `gene_locations`: (gene_id, variant_location_id). -/
def geneLocKey (gid locId : Nat) : GeneLocationRow → Bool := fun r =>
  r.geneId == gid && r.variantLocationId == locId

/-- `cursor.execute` of the `variant_locations` upsert followed by
`fetchone()[0]`: on conflict with the UNIQUE tuple the existing row is
returned untouched, otherwise a fresh row is appended. -/
def execVariantLocationInsert (db : DB) (args : List SqlValue) :
    Except PyError (Nat × DB) :=
  if args.length = countPlaceholders variantLocationInsertQuery then
    match args with
    | [SqlValue.text chrom, SqlValue.int pos, SqlValue.text ref,
       SqlValue.text genome] =>
      match db.variantLocations.find? (locKey chrom pos ref genome) with
      | some r => Except.ok (r.locId, db)
      | none =>
        let newId := db.nextVariantLocationId
        Except.ok (newId,
          { db with
            variantLocations :=
              db.variantLocations ++ [⟨newId, chrom, pos, ref, genome⟩],
            nextVariantLocationId := newId + 1 })
    | _ => Except.error PyError.typeAdaptError
  else
    Except.error PyError.paramCountMismatch

/-- `cursor.execute` of the `variants` upsert followed by `fetchone()[0]`:
keyed on (variant_location_id, alternate_allele); on conflict the existing
row keeps its stored rs_id and its id is returned. -/
def execVariantInsert (db : DB) (args : List SqlValue) :
    Except PyError (Nat × DB) :=
  if args.length = countPlaceholders variantInsertQuery then
    match args with
    | [SqlValue.int locId, rsArg, SqlValue.text alt] =>
      match rsArg with
      | SqlValue.int _ => Except.error PyError.typeAdaptError
      | _ =>
        let rsId : Option String :=
          match rsArg with
          | SqlValue.text s => some s
          | _ => none
        if 0 ≤ locId then
          let locNat := locId.toNat
          match db.variants.find? (varKey locNat alt) with
          | some r => Except.ok (r.varId, db)
          | none =>
            let newId := db.nextVariantId
            Except.ok (newId,
              { db with
                variants := db.variants ++ [⟨newId, locNat, rsId, alt⟩],
                nextVariantId := newId + 1 })
        else
          Except.error PyError.typeAdaptError
    | _ => Except.error PyError.typeAdaptError
  else
    Except.error PyError.paramCountMismatch

/-- `cursor.execute` of the `collections` insert followed by
`fetchone()[0]`. -/
def execCollectionInsert (db : DB) (args : List SqlValue) :
    Except PyError (Nat × DB) :=
  if args.length = countPlaceholders collectionInsertQuery then
    match args with
    | [SqlValue.int sampleCount] =>
      let newId := db.nextCollectionId
      Except.ok (newId,
        { db with
          collections := db.collections ++ [⟨newId, sampleCount⟩],
          nextCollectionId := newId + 1 })
    | _ => Except.error PyError.typeAdaptError
  else
    Except.error PyError.paramCountMismatch

/-- `cursor.execute` of the `variant_frequencies` upsert (no RETURNING
clause): keyed on (variant_id, collection_id); on conflict the incoming
alternate_allele_count is ADDED to the stored value, otherwise a fresh row
is appended. -/
def execVariantFrequencyInsert (db : DB) (args : List SqlValue) :
    Except PyError DB :=
  if args.length = countPlaceholders variantFrequencyInsertQuery then
    match args with
    | [SqlValue.int vid, SqlValue.int cid, SqlValue.int cnt] =>
      if 0 ≤ vid ∧ 0 ≤ cid then
        let vidNat := vid.toNat
        let cidNat := cid.toNat
        match db.variantFrequencies.find? (freqKey vidNat cidNat) with
        | some _ =>
          Except.ok
            { db with
              variantFrequencies := db.variantFrequencies.map (fun r =>
                if freqKey vidNat cidNat r then
                  { r with
                    alternateAlleleCount := r.alternateAlleleCount + cnt }
                else r) }
        | none =>
          let newId := db.nextVariantFrequencyId
          Except.ok
            { db with
              variantFrequencies :=
                db.variantFrequencies ++ [⟨newId, vidNat, cidNat, cnt⟩],
              nextVariantFrequencyId := newId + 1 }
      else
        Except.error PyError.typeAdaptError
    | _ => Except.error PyError.typeAdaptError
  else
    Except.error PyError.paramCountMismatch

/-- `cursor.execute` of the `genes` upsert followed by `fetchone()[0]`. -/
def execGeneInsert (db : DB) (args : List SqlValue) :
    Except PyError (Nat × DB) :=
  if args.length = countPlaceholders geneInsertQuery then
    match args with
    | [SqlValue.text symbol] =>
      match db.genes.find? (fun r => r.symbol == symbol) with
      | some r => Except.ok (r.geneId, db)
      | none =>
        let newId := db.nextGeneId
        Except.ok (newId,
          { db with
            genes := db.genes ++ [⟨newId, symbol⟩],
            nextGeneId := newId + 1 })
    | _ => Except.error PyError.typeAdaptError
  else
    Except.error PyError.paramCountMismatch

/-- `cursor.execute` of the `gene_locations` upsert (ON CONFLICT DO
NOTHING, no fetch at the call site in `process_data`). -/
def execGeneLocationInsert (db : DB) (args : List SqlValue) :
    Except PyError DB :=
  if args.length = countPlaceholders geneLocationInsertQuery then
    match args with
    | [SqlValue.int geneId, SqlValue.int locId] =>
      if 0 ≤ geneId ∧ 0 ≤ locId then
        let gNat := geneId.toNat
        let lNat := locId.toNat
        match db.geneLocations.find? (geneLocKey gNat lNat) with
        | some _ => Except.ok db
        | none =>
          let newId := db.nextGeneLocationId
          Except.ok
            { db with
              geneLocations := db.geneLocations ++ [⟨newId, gNat, lNat⟩],
              nextGeneLocationId := newId + 1 }
      else
        Except.error PyError.typeAdaptError
    | _ => Except.error PyError.typeAdaptError
  else
    Except.error PyError.paramCountMismatch

/-- The gene mapping loaded by `gene_mapping.load_gene_mapping`: a Python
dict from Ensembl gene id to the single gene name kept for it (rows with a
blank gene name are dropped before the dict is built; dict keys are
unique, so lookup is association-list lookup on the first match). -/
abbrev GeneMapping := List (String × String)

/-- `gene_mapping.map_gene_symbols`: `gene_mapping.get(id, None)`, then
`[]` for `None` and a one-element list otherwise. -/
def map_gene_symbols (ensemblGeneId : String) (geneMapping : GeneMapping) :
    List String :=
  match geneMapping.lookup ensemblGeneId with
  | none => []
  | some symbol => [symbol]

/-- The AC info field of a VCF record as pysam hands it to
`process_data`: either a single shared count or a per-allele list. -/
inductive AcField where
  | scalar : Int → AcField
  | listOf : List Int → AcField
deriving Repr, DecidableEq

/-- One parsed VCF record, with exactly the fields `process_data` reads:
CHROM, POS, REF, ID, ALT list, INFO/AC, INFO/AN, INFO/SNPEFF_GENE_NAME.
Absent INFO fields are `none`. -/
structure VcfRecord where
  chrom : String
  pos : Int
  ref : String
  recId : Option String
  alts : List String
  infoAC : Option AcField
  infoAN : Option Int
  infoSnpeffGeneName : Option String
deriving Repr, DecidableEq

/-- Adapt an optional Python int to a SQL value (None becomes NULL). -/
def sqlOfOptInt : Option Int → SqlValue
  | none => SqlValue.null
  | some n => SqlValue.int n

/-- Adapt an optional Python string to a SQL value (None becomes NULL). -/
def sqlOfOptText : Option String → SqlValue
  | none => SqlValue.null
  | some s => SqlValue.text s

/-- The gene block of `process_data` (lines 56-59): for each mapped
symbol, upsert the gene, fetch its id, and upsert the gene-location
link. -/
def processGeneSymbols (varLocationId : Nat) (symbols : List String)
    (db : DB) : Except PyError DB :=
  match symbols with
  | [] => Except.ok db
  | symbol :: rest => do
    let (geneId, db) ← execGeneInsert db [SqlValue.text symbol]
    let db ← execGeneLocationInsert db
      [SqlValue.int (Int.ofNat geneId), SqlValue.int (Int.ofNat varLocationId)]
    processGeneSymbols varLocationId rest db

/-- The body of `for i, alt_allele in enumerate(record.alts)` in
`process_data` (lines 62-74): upsert the variant, resolve the per-allele
count from AC (indexing raising IndexError past the end of a list, and
`record.info['AC']` raising KeyError when AC is absent), then execute the
frequency insert with the four-value argument tuple
`(variant_id, collection_id, allele_count, an_info)` built at line 74. -/
def processAlt (collectionId varLocationId : Nat) (record : VcfRecord)
    (i : Nat) (altAllele : String) (db : DB) : Except PyError DB := do
  let rsId : Option String :=
    match record.recId with
    | some s => if s == "" then none else some s
    | none => none
  let (variantId, db) ← execVariantInsert db
    [SqlValue.int (Int.ofNat varLocationId), sqlOfOptText rsId,
     SqlValue.text altAllele]
  let acInfo ←
    match record.infoAC with
    | none => Except.error PyError.keyError
    | some a => Except.ok a
  let alleleCount ←
    match acInfo with
    | AcField.listOf l =>
      match l.get? i with
      | some c => Except.ok c
      | none => Except.error PyError.indexOutOfRange
    | AcField.scalar c => Except.ok c
  execVariantFrequencyInsert db
    [SqlValue.int (Int.ofNat variantId), SqlValue.int (Int.ofNat collectionId),
     SqlValue.int alleleCount, sqlOfOptInt record.infoAN]

/-- Fold `processAlt` over the enumerated alternate alleles. -/
def processAlts (collectionId varLocationId : Nat) (record : VcfRecord)
    (indexedAlts : List (Nat × String)) (db : DB) : Except PyError DB :=
  match indexedAlts with
  | [] => Except.ok db
  | (i, alt) :: rest => do
    let db ← processAlt collectionId varLocationId record i alt db
    processAlts collectionId varLocationId record rest db

/-- One iteration of `for record in vcf` in `process_data` (lines 44-74):
upsert the location, handle the optional SNPEFF_GENE_NAME gene block
(the empty string is falsy in Python and skips it), then process every
alternate allele. -/
def processRecord (geneMapping : GeneMapping) (refGenome : String)
    (collectionId : Nat) (record : VcfRecord) (db : DB) :
    Except PyError DB := do
  let (varLocationId, db) ← execVariantLocationInsert db
    [SqlValue.text record.chrom, SqlValue.int record.pos,
     SqlValue.text record.ref, SqlValue.text refGenome]
  let db ←
    match record.infoSnpeffGeneName with
    | some gid =>
      if gid == "" then Except.ok db
      else processGeneSymbols varLocationId (map_gene_symbols gid geneMapping) db
    | none => Except.ok db
  processAlts collectionId varLocationId record record.alts.enum db

/-- A psycopg2 connection: the committed database state and the current
in-transaction state. -/
structure Conn (σ : Type) where
  committed : σ
  current : σ
deriving Repr, DecidableEq

/-- `conn.commit()`: the in-transaction state becomes durable. -/
def Conn.commitTx (c : Conn σ) : Conn σ := ⟨c.current, c.current⟩

/-- `conn.rollback()`: the in-transaction state is discarded. -/
def Conn.rollbackTx (c : Conn σ) : Conn σ := ⟨c.committed, c.committed⟩

/-- The record loop of `process_data` (lines 42-82) for one file, over an
arbitrary per-record action and state type: run each record against the
current transaction state; on an exception roll back and re-raise (the
error is returned alongside the connection); every 10,000 processed
records commit; at end of file commit the remainder. -/
def ingestLoop (step : ρ → σ → Except ε σ) (records : List ρ)
    (processed : Nat) (conn : Conn σ) : Conn σ × Option ε :=
  match records with
  | [] => (conn.commitTx, none)
  | r :: rest =>
    match step r conn.current with
    | Except.error e => (conn.rollbackTx, some e)
    | Except.ok s =>
      let processed := processed + 1
      let conn : Conn σ := ⟨conn.committed, s⟩
      let conn := if processed % 10000 == 0 then conn.commitTx else conn
      ingestLoop step rest processed conn

/-- `process_data` for a single already-parsed VCF file (lines 32-82):
insert the collection row for the file inside the transaction, then
stream the records through `ingestLoop`; an exception anywhere rolls the
uncommitted work back and is re-raised. -/
def processFile (geneMapping : GeneMapping) (refGenome : String)
    (sampleCount : Int) (records : List VcfRecord) (conn : Conn DB) :
    Conn DB × Option PyError :=
  match execCollectionInsert conn.current [SqlValue.int sampleCount] with
  | Except.error e => (conn.rollbackTx, some e)
  | Except.ok (collectionId, db) =>
    ingestLoop (processRecord geneMapping refGenome collectionId) records 0
      ⟨conn.committed, db⟩

/-- `n`-fold repetition of the `variant_locations` upsert on the same
(chromosome, position, reference_allele, genome_version) tuple, as issued
by `process_data` when the same coordinate is observed repeatedly. -/
def iterateLocationInsert (chrom : String) (pos : Int) (ref genome : String) :
    Nat → DB → DB
  | 0, db => db
  | n + 1, db =>
    match execVariantLocationInsert db
        [SqlValue.text chrom, SqlValue.int pos, SqlValue.text ref,
         SqlValue.text genome] with
    | Except.ok (_, db2) => iterateLocationInsert chrom pos ref genome n db2
    | Except.error _ => db

/-- Per-record action for a synthetic file in which record number `bad`
raises a forced unrecoverable error and every other record appends its
own number as its write; used to exercise the batching loop the way the
claimed 25,000-record scenario stipulates. -/
def forcedStep (bad : Nat) : Nat → List Nat → Except PyError (List Nat) :=
  fun r cur =>
    if r = bad then Except.error PyError.forcedFailure
    else Except.ok (cur ++ [r])

/-! ### Query layer (`src/queries/variant_queries.py`) -/

/-- One `variant_frequencies` row of a variant's GROUP BY group as the
query layer reads it: the per-collection alternate_allele_count and
allele_number columns its SELECT expressions reference. -/
structure FreqObs where
  alternateAlleleCount : Int
  alleleNumber : Int
deriving Repr, DecidableEq

/-- `SUM(vf.alternate_allele_count)` over a variant's group. -/
def sumAltCount (rows : List FreqObs) : ℚ :=
  ((rows.map (fun r => r.alternateAlleleCount)).sum : Int)

/-- `SUM(vf.allele_number)` over a variant's group. -/
def sumAlleleNumber (rows : List FreqObs) : ℚ :=
  ((rows.map (fun r => r.alleleNumber)).sum : Int)

/-- PostgreSQL `ROUND(x::numeric, 4)`: round half away from zero at the
fourth decimal place. -/
def pgRound4 (q : ℚ) : ℚ :=
  if 0 ≤ q then ((round (q * 10000) : ℤ) : ℚ) / 10000
  else -(((round (-q * 10000) : ℤ) : ℚ) / 10000)

/-- The `alt_allele_freq` SELECT expression of `get_variants_in_range` and
`get_variants_advanced_search`, and the `allele_frequency` expression of
`get_variants_by_gene`:
`ROUND(SUM(vf.alternate_allele_count)::numeric / SUM(vf.allele_number), 4)`
evaluated on one variant's group. -/
def altAlleleFreq (rows : List FreqObs) : ℚ :=
  pgRound4 (sumAltCount rows / sumAlleleNumber rows)

/-- The `ref_allele_freq` SELECT expression:
`ROUND((SUM(an) - SUM(ac))::numeric / SUM(an), 4)`. -/
def refAlleleFreq (rows : List FreqObs) : ℚ :=
  pgRound4 ((sumAlleleNumber rows - sumAltCount rows) / sumAlleleNumber rows)

/-- Reference value following the claim's words: the exact (unrounded)
quotient SUM(alternate_allele_count) / SUM(allele_number) over all of the
variant's collections. -/
def weightedRatioSpec (rows : List FreqObs) : ℚ :=
  sumAltCount rows / sumAlleleNumber rows

/-- Reference foil named by the claim: the mean of the per-collection
ratios alternate_allele_count / allele_number. -/
def meanOfRatiosSpec (rows : List FreqObs) : ℚ :=
  (rows.map (fun r =>
    (r.alternateAlleleCount : ℚ) / (r.alleleNumber : ℚ))).sum / rows.length

/-- The two-collection example fixed by the claim:
(alt = 10, an = 100) and (alt = 2, an = 10). -/
def freqExample : List FreqObs := [⟨10, 100⟩, ⟨2, 10⟩]

/-! ### Bulk-search CSV validation (`src/utils/csv_parser.py`) -/

/-- Blank characters stripped by Python `str.strip()` (space, tab,
newline, carriage return; the rarer blank code points do not occur in the
claims' inputs). -/
def pyBlankChar (c : Char) : Bool :=
  c = Char.ofNat 32 || c = Char.ofNat 9 || c = Char.ofNat 10 ||
    c = Char.ofNat 13

/-- Python `str.strip()`. -/
def pyStrip (s : String) : String :=
  String.mk (((s.data.dropWhile pyBlankChar).reverse.dropWhile
    pyBlankChar).reverse)

/-- One bulk-search CSV row restricted to the four recognized columns;
`none` models a missing column or a cell that is NA (`pd.notna` false).
Position cells are modelled as already-parsed integers: the rows the
claims quantify over carry integer or absent positions, so the
`int(...)`-conversion failure branch of the source is never taken and is
omitted. -/
structure CsvRow where
  geneSymbol : Option String
  chromosome : Option String
  startPos : Option Int
  endPos : Option Int
deriving Repr, DecidableEq

/-- The `valid_chromosomes` set of `validate_csv_data`:
`str(i)` for 1-22, the sex/mito labels, and the same with a chr prefix. -/
def validChromosomes : List String :=
  ((List.range' 1 22).map (fun i => toString i)) ++
    ["X", "Y", "MT", "chrX", "chrY", "chrMT"] ++
    ((List.range' 1 22).map (fun i => "chr" ++ toString i))

/-- Prefix shared by every row-level error message of
`validate_csv_data`: the f-string `Row {row_num}:`. -/
def rowTag (n : Nat) : String := "Row " ++ toString n ++ ":"

/-- Row error: no valid query type. -/
def msgNeedQueryType (n : Nat) : String :=
  rowTag n ++ " Must have gene_symbol OR (chromosome + start_position + end_position)"

/-- Row error: chromosome without both positions. -/
def msgChrNeedsPositions (n : Nat) : String :=
  rowTag n ++ " Chromosome queries require both start_position and end_position"

/-- Row error: positions without chromosome. -/
def msgPositionsNeedChr (n : Nat) : String :=
  rowTag n ++ " start_position and end_position require chromosome"

/-- Row error: chromosome label outside the valid set (the source also
quotes the offending value; the quote characters are omitted here). -/
def msgInvalidChromosome (n : Nat) (c : String) : String :=
  rowTag n ++ (" Invalid chromosome " ++ c ++ ". Must be 1-22, X, Y, or MT")

/-- Row error: non-positive position. -/
def msgPositivePositions (n : Nat) : String :=
  rowTag n ++ " start_position and end_position must be positive integers"

/-- Row error: start after end. -/
def msgStartAfterEnd (n : Nat) (s e : Int) : String :=
  rowTag n ++ (" start_position (" ++ toString s ++
    ") must be <= end_position (" ++ toString e ++ ")")

/-- Row error: blank gene symbol. -/
def msgEmptyGene (n : Nat) : String :=
  rowTag n ++ " gene_symbol cannot be empty"

/-- The `Validate chromosome value` block of `validate_csv_data`. -/
def chromErrorsOf (rowNum : Nat) (row : CsvRow) : List String :=
  match row.chromosome with
  | some c =>
    if validChromosomes.contains (pyStrip c) then []
    else [msgInvalidChromosome rowNum (pyStrip c)]
  | none => []

/-- The `Validate start and end positions` block of `validate_csv_data`. -/
def posErrorsOf (rowNum : Nat) (row : CsvRow) : List String :=
  match row.startPos, row.endPos with
  | some s, some e =>
    if s ≤ 0 || e ≤ 0 then [msgPositivePositions rowNum]
    else if s > e then [msgStartAfterEnd rowNum s e]
    else []
  | _, _ => []

/-- The `Validate gene symbol is non-empty` block of
`validate_csv_data`. -/
def geneErrorsOf (rowNum : Nat) (row : CsvRow) : List String :=
  match row.geneSymbol with
  | some g => if pyStrip g == "" then [msgEmptyGene rowNum] else []
  | none => []

/-- The per-row body of the `for idx, row in df.iterrows()` loop of
`validate_csv_data`: the three `continue`-guarded shape rules followed by
the chromosome, position and gene-symbol value checks, appended in source
order. -/
def validateRow (rowNum : Nat) (row : CsvRow) : List String :=
  let hasGene := row.geneSymbol.isSome
  let hasChr := row.chromosome.isSome
  let hasStart := row.startPos.isSome
  let hasEnd := row.endPos.isSome
  if !(hasGene || (hasChr && hasStart && hasEnd)) then
    [msgNeedQueryType rowNum]
  else if hasChr && !(hasStart && hasEnd) then
    [msgChrNeedsPositions rowNum]
  else if (hasStart || hasEnd) && !hasChr then
    [msgPositionsNeedChr rowNum]
  else
    chromErrorsOf rowNum row ++ posErrorsOf rowNum row ++
      geneErrorsOf rowNum row

/-- `csv_parser.validate_csv_data`: all rows' errors collected into one
list; `row_num = idx + 2` accounts for the header line and 0-indexing. -/
def validate_csv_data (rows : List CsvRow) : List String :=
  (rows.enum.map (fun p => validateRow (p.1 + 2) p.2)).flatten

/-! ### VEP CSQ rs_id extraction (`src/utils/vep_utils.py`) -/

/-- Python `str.split(sep)` for a one-character separator, on character
lists (structural, so concrete instances reduce in the kernel). -/
def splitOnChar (sep : Char) : List Char → List (List Char)
  | [] => [[]]
  | a :: rest =>
    let r := splitOnChar sep rest
    if a = sep then [] :: r
    else
      match r with
      | [] => [[a]]
      | h :: t => (a :: h) :: t

/-- Python `str.split(sep)` on strings. -/
def pySplit (sep : Char) (s : String) : List String :=
  (splitOnChar sep s.data).map String.mk

/-- Python `str.startswith(pre)`. -/
def pyStartsWith (pre s : String) : Bool :=
  pre.data.isPrefixOf s.data

/-- The pipe field delimiter of a CSQ entry. -/
def pipeChar : Char := Char.ofNat 124

/-- The ampersand delimiter inside the Existing_variation field. -/
def ampChar : Char := Char.ofNat 38

/-- The semicolon delimiter named by the claim. -/
def semiChar : Char := Char.ofNat 59

/-- The entry loop of `extract_rsid_from_csq`: for each annotation entry
in order, split on the pipe delimiter; when the Existing_variation field
exists and is non-empty, return the first ampersand-delimited token with
the rs prefix; otherwise continue with the next entry. -/
def csqEntryScan (idx : Nat) : List String → Option String
  | [] => none
  | entry :: rest =>
    let fields := pySplit pipeChar entry
    match fields.get? idx with
    | some fv =>
      if fv == "" then csqEntryScan idx rest
      else
        match (pySplit ampChar fv).find? (fun t => pyStartsWith "rs" t) with
        | some v => some v
        | none => csqEntryScan idx rest
    | none => csqEntryScan idx rest

/-- `vep_utils.extract_rsid_from_csq`: `None` on an empty payload or a
header mapping without Existing_variation, otherwise the entry scan. -/
def extract_rsid_from_csq (csqPayload : List String)
    (csqIndex : List (String × Nat)) : Option String :=
  match csqPayload with
  | [] => none
  | _ =>
    match csqIndex.lookup "Existing_variation" with
    | none => none
    | some idx => csqEntryScan idx csqPayload

/-- Tokens of one entry under the CLAIM's delimiting: the
Existing_variation field split on BOTH the semicolon and the ampersand
delimiters, tokens in order. -/
def claimEntryTokens (idx : Nat) (entry : String) : List String :=
  match (pySplit pipeChar entry).get? idx with
  | some fv =>
    if fv == "" then []
    else ((pySplit semiChar fv).map (pySplit ampChar)).flatten
  | none => []

/-- The extractor the claim describes, word for word: the first
rs-prefixed token found by scanning entries in order, each entry's
cross-reference field split on both its semicolon and ampersand
delimiters. -/
def rsidClaimSpec (csqPayload : List String)
    (csqIndex : List (String × Nat)) : Option String :=
  match csqPayload with
  | [] => none
  | _ =>
    match csqIndex.lookup "Existing_variation" with
    | none => none
    | some idx =>
      ((csqPayload.map (claimEntryTokens idx)).flatten).find?
        (fun t => pyStartsWith "rs" t)

/-- Tokens of one entry under the delimiting the code actually performs:
ampersand only. -/
def ampEntryTokens (idx : Nat) (entry : String) : List String :=
  match (pySplit pipeChar entry).get? idx with
  | some fv => if fv == "" then [] else pySplit ampChar fv
  | none => []

/-- The amended reference extractor: the first rs-prefixed token found by
scanning annotation entries in order, splitting each entry's
cross-reference field on its ampersand delimiter only. -/
def rsidAmpSpec (csqPayload : List String)
    (csqIndex : List (String × Nat)) : Option String :=
  match csqPayload with
  | [] => none
  | _ =>
    match csqIndex.lookup "Existing_variation" with
    | none => none
    | some idx =>
      ((csqPayload.map (ampEntryTokens idx)).flatten).find?
        (fun t => pyStartsWith "rs" t)

/-! ### Concrete inputs used by the claim instances -/

/-- Multi-allelic record of the fan-out claim: reference A, alternates
C and G, per-allele counts [5, 7], allele number 100. -/
def multiAllelicRecord : VcfRecord :=
  ⟨"1", 100, "A", none, ["C", "G"], some (AcField.listOf [5, 7]),
    some 100, none⟩

/-- Malformed record of the short-count-list claim: two alternate
alleles but a one-element per-allele count list. -/
def shortCountRecord : VcfRecord :=
  ⟨"1", 100, "A", none, ["C", "G"], some (AcField.listOf [5]),
    some 100, none⟩

/-- Bulk-search CSV fixture: a row with chromosome 23, a gene-only row,
and a row whose start position exceeds its end position. -/
def csvRowsExample : List CsvRow :=
  [⟨none, some "23", some 5, some 10⟩,
   ⟨some "BRCA1", none, none, none⟩,
   ⟨none, some "1", some 10, some 5⟩]

/-- CSQ payload fixture: one entry whose Existing_variation field uses a
semicolon delimiter. -/
def csqExamplePayload : List String := ["COSV123;rs456"]

/-- Header mapping fixture placing Existing_variation at field 0. -/
def csqExampleIndex : List (String × Nat) := [("Existing_variation", 0)]

/-- Gene-mapping fixture with a single mapped Ensembl id. -/
def geneMappingExample : GeneMapping := [("ENSG00000139618", "BRCA2")]

/-! ## Helper lemmas -/

theorem countPlaceholders_locQuery :
    countPlaceholders variantLocationInsertQuery = 4 := by decide

theorem countPlaceholders_varQuery :
    countPlaceholders variantInsertQuery = 3 := by decide

theorem countPlaceholders_collQuery :
    countPlaceholders collectionInsertQuery = 1 := by decide

theorem countPlaceholders_freqQuery :
    countPlaceholders variantFrequencyInsertQuery = 3 := by decide

theorem countPlaceholders_geneQuery :
    countPlaceholders geneInsertQuery = 1 := by decide

theorem countPlaceholders_geneLocQuery :
    countPlaceholders geneLocationInsertQuery = 2 := by decide

/-! ## Claim theorems -/

/-- C2: the claim states that the first insertion of a VariantFrequency
row stores both the per-allele alternate_allele_count and the record's
allele_number and succeeds.  The code cannot do this: `process_data`
(vcf2db.py line 74) passes the four-value tuple
(variant_id, collection_id, allele_count, an_info) to the
`insert_variant_frequency()` statement, whose SQL has only three
placeholders and whose target table has no allele_number column, so the
execute call raises for every record and nothing is stored. -/
theorem frequency_insert_param_count_bug (db : DB)
    (variantId collectionId : Nat) (alleleCount : Int)
    (anInfo : Option Int) :
    execVariantFrequencyInsert db
      [SqlValue.int (Int.ofNat variantId), SqlValue.int (Int.ofNat collectionId),
       SqlValue.int alleleCount, sqlOfOptInt anInfo] =
      Except.error PyError.paramCountMismatch := by
  simp [execVariantFrequencyInsert, countPlaceholders_freqQuery]

/-- C4: the claim states that ingesting one record with reference A and
alternates [C, G] produces two Variant rows sharing one VariantLocation,
with per-allele counts attributed by index.  Running the embedded
`process_data` on exactly that record instead aborts at the first
alternate's frequency insert (the four-argument call against the
three-placeholder statement), the transaction is rolled back, and the
committed state keeps zero Variant rows. -/
theorem multiallelic_fanout_aborted :
    processFile [] "GRCh38" 2 [multiAllelicRecord] ⟨emptyDB, emptyDB⟩ =
      (⟨emptyDB, emptyDB⟩, some PyError.paramCountMismatch) ∧
    (processFile [] "GRCh38" 2 [multiAllelicRecord]
      ⟨emptyDB, emptyDB⟩).1.committed.variants = [] := by
  constructor
  · decide
  · decide

/-- C6: the claim states that a record with two alternate alleles but a
one-element count list fails with MalformedRecord and leaves no partial
rows.  Ingestion of that record does fail and the rollback does leave no
rows, but the error is the parameter-count mismatch raised at the FIRST
alternate's frequency insert — the short count list is never even
indexed (which would have raised IndexError at the second alternate),
and no MalformedRecord condition exists anywhere in the code. -/
theorem short_count_list_failure :
    processFile [] "GRCh38" 2 [shortCountRecord] ⟨emptyDB, emptyDB⟩ =
      (⟨emptyDB, emptyDB⟩, some PyError.paramCountMismatch) ∧
    PyError.paramCountMismatch ≠ PyError.indexOutOfRange := by
  constructor
  · decide
  · decide

/-- Auxiliary for C9: the entry scan is the first rs-prefixed token of
the concatenation, in entry order, of each entry's ampersand-delimited
cross-reference tokens. -/
theorem csqEntryScan_eq_find (idx : Nat) (entries : List String) :
    csqEntryScan idx entries =
      ((entries.map (ampEntryTokens idx)).flatten).find?
        (fun t => pyStartsWith "rs" t) := by
  induction entries with
  | nil => rfl
  | cons entry rest ih =>
    rw [List.map_cons, List.flatten_cons, List.find?_append, ← ih]
    show csqEntryScan idx (entry :: rest) = _
    rw [csqEntryScan, ampEntryTokens]
    cases hg : (pySplit pipeChar entry).get? idx with
    | none => simp
    | some fv =>
      by_cases hfv : fv == ""
      · simp [hfv]
      · simp only [hfv, if_neg, Bool.false_eq_true, not_false_iff, if_false]
        cases hf : (pySplit ampChar fv).find? (fun t => pyStartsWith "rs" t) with
        | none => simp [hf]
        | some v => simp [hf]

/-- C9 counterexample: on a payload whose cross-reference field is
semicolon-delimited, the extractor described by the claim (split on both
semicolon and ampersand) finds rs456, but `extract_rsid_from_csq` splits
on the ampersand only and returns None. -/
theorem rsid_delimiter_counterexample :
    extract_rsid_from_csq csqExamplePayload csqExampleIndex = none ∧
    rsidClaimSpec csqExamplePayload csqExampleIndex = some "rs456" ∧
    extract_rsid_from_csq csqExamplePayload csqExampleIndex ≠
      rsidClaimSpec csqExamplePayload csqExampleIndex := by
  refine ⟨by decide, by decide, by decide⟩

/-- C9 (amended): for every CSQ payload and header index,
`extract_rsid_from_csq` returns the first rs-prefixed token found by
scanning annotation entries in order and, within one entry's
cross-reference field, splitting on the AMPERSAND delimiter only (not
the semicolon); it returns None when the payload is empty, when the
header mapping has no Existing_variation field, or when no rs-prefixed
token exists. -/
theorem rsid_first_amp_token (csqPayload : List String)
    (csqIndex : List (String × Nat)) :
    extract_rsid_from_csq csqPayload csqIndex =
      rsidAmpSpec csqPayload csqIndex := by
  cases csqPayload with
  | nil => rfl
  | cons entry rest =>
    cases h : csqIndex.lookup "Existing_variation" with
    | none => simp [extract_rsid_from_csq, rsidAmpSpec, h]
    | some idx =>
      simp only [extract_rsid_from_csq, rsidAmpSpec, h]
      exact csqEntryScan_eq_find idx (entry :: rest)

/-- C10: `map_gene_symbols` returns at most one symbol: the empty list
exactly when the Ensembl id is absent from the loaded mapping — in which
case the gene block of `process_data` runs zero iterations, raising
nothing and leaving the database untouched — and the one mapped name
otherwise. -/
theorem gene_mapping_at_most_one (gid : String) (gm : GeneMapping) :
    (map_gene_symbols gid gm).length ≤ 1 ∧
    (gm.lookup gid = none →
      map_gene_symbols gid gm = [] ∧
      ∀ (varLocationId : Nat) (db : DB),
        processGeneSymbols varLocationId (map_gene_symbols gid gm) db =
          Except.ok db) ∧
    (∀ s, gm.lookup gid = some s → map_gene_symbols gid gm = [s]) := by
  refine ⟨?_, ?_, ?_⟩
  · rw [map_gene_symbols]
    cases gm.lookup gid <;> simp
  · intro hnone
    rw [map_gene_symbols, hnone]
    exact ⟨rfl, fun _ _ => rfl⟩
  · intro s hs
    rw [map_gene_symbols, hs]

/-- C10 witness: the fixture mapping at a missing and at a present id. -/
theorem gene_mapping_at_most_one_witness :
    ((map_gene_symbols "ENSG0MISSING" geneMappingExample).length ≤ 1 ∧
      map_gene_symbols "ENSG0MISSING" geneMappingExample = [] ∧
      processGeneSymbols 7 (map_gene_symbols "ENSG0MISSING" geneMappingExample)
        emptyDB = Except.ok emptyDB) ∧
    map_gene_symbols "ENSG00000139618" geneMappingExample = ["BRCA2"] :=
  ⟨⟨(gene_mapping_at_most_one "ENSG0MISSING" geneMappingExample).1,
    ((gene_mapping_at_most_one "ENSG0MISSING" geneMappingExample).2.1
      (by decide)).1,
    ((gene_mapping_at_most_one "ENSG0MISSING" geneMappingExample).2.1
      (by decide)).2 7 emptyDB⟩,
   (gene_mapping_at_most_one "ENSG00000139618" geneMappingExample).2.2
     "BRCA2" (by decide)⟩

/-- Auxiliary: the frequency upsert on a (variant, collection) pair with
no existing row appends a fresh row carrying the incoming count. -/
theorem execVariantFrequencyInsert_new (db : DB) (vid cid : Nat) (cnt : Int)
    (h : db.variantFrequencies.find? (freqKey vid cid) = none) :
    execVariantFrequencyInsert db
      [SqlValue.int (Int.ofNat vid), SqlValue.int (Int.ofNat cid),
       SqlValue.int cnt] =
      Except.ok { db with
        variantFrequencies := db.variantFrequencies ++
          [⟨db.nextVariantFrequencyId, vid, cid, cnt⟩],
        nextVariantFrequencyId := db.nextVariantFrequencyId + 1 } := by
  simp [execVariantFrequencyInsert, countPlaceholders_freqQuery,
    Int.ofNat_nonneg, h]

/-- Auxiliary: the frequency upsert on a (variant, collection) pair that
already has a row ADDS the incoming count to every matching row and
appends nothing. -/
theorem execVariantFrequencyInsert_conflict (db : DB) (vid cid : Nat)
    (cnt : Int) (r0 : VariantFrequencyRow)
    (h : db.variantFrequencies.find? (freqKey vid cid) = some r0) :
    execVariantFrequencyInsert db
      [SqlValue.int (Int.ofNat vid), SqlValue.int (Int.ofNat cid),
       SqlValue.int cnt] =
      Except.ok { db with
        variantFrequencies := db.variantFrequencies.map (fun r =>
          if freqKey vid cid r then
            { r with alternateAlleleCount := r.alternateAlleleCount + cnt }
          else r) } := by
  simp [execVariantFrequencyInsert, countPlaceholders_freqQuery,
    Int.ofNat_nonneg, h]

/-- C1: executing the variant_frequencies upsert twice for the same
(variant, collection) pair — first with alternate_allele_count 5, then
3 — starting from a state with no row for that pair succeeds both times
and leaves exactly one row for the pair, holding 8: the second write
adds to the stored count; it neither overwrites it nor creates a second
row. -/
theorem frequency_upsert_fold (db : DB) (vid cid : Nat)
    (h : db.variantFrequencies.countP (freqKey vid cid) = 0) :
    ∃ db1 db2,
      execVariantFrequencyInsert db
        [SqlValue.int (Int.ofNat vid), SqlValue.int (Int.ofNat cid),
         SqlValue.int 5] = Except.ok db1 ∧
      execVariantFrequencyInsert db1
        [SqlValue.int (Int.ofNat vid), SqlValue.int (Int.ofNat cid),
         SqlValue.int 3] = Except.ok db2 ∧
      db2.variantFrequencies.countP (freqKey vid cid) = 1 ∧
      ∀ r ∈ db2.variantFrequencies,
        freqKey vid cid r = true → r.alternateAlleleCount = 8 := by
  have hall : ∀ a ∈ db.variantFrequencies, ¬ freqKey vid cid a :=
    List.countP_eq_zero.mp h
  have hfind : db.variantFrequencies.find? (freqKey vid cid) = none :=
    List.find?_eq_none.mpr hall
  set row5 : VariantFrequencyRow := ⟨db.nextVariantFrequencyId, vid, cid, 5⟩
  have hkey5 : freqKey vid cid row5 = true := by simp [freqKey, row5]
  set db1 : DB := { db with
    variantFrequencies := db.variantFrequencies ++ [row5],
    nextVariantFrequencyId := db.nextVariantFrequencyId + 1 }
  have hstep1 := execVariantFrequencyInsert_new db vid cid 5 hfind
  have hfind1 : db1.variantFrequencies.find? (freqKey vid cid) = some row5 := by
    show (db.variantFrequencies ++ [row5]).find? (freqKey vid cid) = some row5
    rw [List.find?_append, hfind]
    simp [List.find?_cons, hkey5]
  have hstep2 := execVariantFrequencyInsert_conflict db1 vid cid 3 row5 hfind1
  refine ⟨db1, _, hstep1, hstep2, ?_, ?_⟩
  · show ((db.variantFrequencies ++ [row5]).map _).countP (freqKey vid cid) = 1
    rw [List.map_append]
    have hl : db.variantFrequencies.map (fun r =>
        if freqKey vid cid r then
          { r with alternateAlleleCount := r.alternateAlleleCount + 3 }
        else r) = db.variantFrequencies := by
      rw [show db.variantFrequencies =
          db.variantFrequencies.map id from (List.map_id _).symm]
      rw [List.map_map]
      refine List.map_congr_left (fun a ha => ?_)
      simp [hall a (by simpa using ha)]
    rw [hl, List.countP_append, h]
    simp [hkey5, List.countP_cons, freqKey]
  · intro r hr hkr
    have hr2 : r ∈ (db.variantFrequencies ++ [row5]).map (fun r =>
        if freqKey vid cid r then
          { r with alternateAlleleCount := r.alternateAlleleCount + 3 }
        else r) := hr
    rw [List.map_append, List.mem_append] at hr2
    rcases hr2 with hr2 | hr2
    · rcases List.mem_map.mp hr2 with ⟨a, ha, rfl⟩
      have hna := hall a ha
      rw [if_neg hna] at hkr ⊢
      exact absurd hkr hna
    · rcases List.mem_map.mp hr2 with ⟨a, ha, rfl⟩
      rcases List.mem_singleton.mp ha with rfl
      rw [if_pos hkey5]
      have h5 : row5.alternateAlleleCount = 5 := rfl
      show row5.alternateAlleleCount + 3 = 8
      rw [h5]
      norm_num

/-- C1 witness: the fold at the empty database with variant 1 and
collection 1. -/
theorem frequency_upsert_fold_witness :
    emptyDB.variantFrequencies.countP (freqKey 1 1) = 0 ∧
    ∃ db1 db2,
      execVariantFrequencyInsert emptyDB
        [SqlValue.int (Int.ofNat 1), SqlValue.int (Int.ofNat 1),
         SqlValue.int 5] = Except.ok db1 ∧
      execVariantFrequencyInsert db1
        [SqlValue.int (Int.ofNat 1), SqlValue.int (Int.ofNat 1),
         SqlValue.int 3] = Except.ok db2 ∧
      db2.variantFrequencies.countP (freqKey 1 1) = 1 ∧
      ∀ r ∈ db2.variantFrequencies,
        freqKey 1 1 r = true → r.alternateAlleleCount = 8 :=
  ⟨by decide, frequency_upsert_fold emptyDB 1 1 (by decide)⟩

/-- Auxiliary: the location upsert on an already-present tuple returns
the existing row id and leaves the database unchanged. -/
theorem execVariantLocationInsert_conflict (db : DB) (chrom : String)
    (pos : Int) (ref genome : String) (r0 : VariantLocationRow)
    (h : db.variantLocations.find? (locKey chrom pos ref genome) = some r0) :
    execVariantLocationInsert db
      [SqlValue.text chrom, SqlValue.int pos, SqlValue.text ref,
       SqlValue.text genome] = Except.ok (r0.locId, db) := by
  simp [execVariantLocationInsert, countPlaceholders_locQuery, h]

/-- Auxiliary: the location upsert on an absent tuple appends one fresh
row and returns its id. -/
theorem execVariantLocationInsert_new (db : DB) (chrom : String)
    (pos : Int) (ref genome : String)
    (h : db.variantLocations.find? (locKey chrom pos ref genome) = none) :
    execVariantLocationInsert db
      [SqlValue.text chrom, SqlValue.int pos, SqlValue.text ref,
       SqlValue.text genome] =
      Except.ok (db.nextVariantLocationId,
        { db with
          variantLocations := db.variantLocations ++
            [⟨db.nextVariantLocationId, chrom, pos, ref, genome⟩],
          nextVariantLocationId := db.nextVariantLocationId + 1 }) := by
  simp [execVariantLocationInsert, countPlaceholders_locQuery, h]

/-- Auxiliary: once the tuple has a row, any number of further upserts
leaves the database unchanged. -/
theorem iterateLocationInsert_stable (chrom : String) (pos : Int)
    (ref genome : String) (db : DB) (r0 : VariantLocationRow)
    (h : db.variantLocations.find? (locKey chrom pos ref genome) = some r0) :
    ∀ n, iterateLocationInsert chrom pos ref genome n db = db := by
  intro n
  induction n with
  | zero => rfl
  | succ m ih =>
    rw [iterateLocationInsert, execVariantLocationInsert_conflict db chrom
      pos ref genome r0 h]
    exact ih

/-- C3: resolving the same (chromosome, position, reference allele,
genome build) tuple twice through the location upsert returns the same
row id both times, and — starting from a state respecting the UNIQUE
constraint — after any positive number of such calls the
variant_locations table contains exactly one row for the tuple. -/
theorem location_resolution_idempotent (db : DB) (chrom : String)
    (pos : Int) (ref genome : String)
    (h : db.variantLocations.countP (locKey chrom pos ref genome) ≤ 1) :
    ∃ id1 db1 id2 db2,
      execVariantLocationInsert db
        [SqlValue.text chrom, SqlValue.int pos, SqlValue.text ref,
         SqlValue.text genome] = Except.ok (id1, db1) ∧
      execVariantLocationInsert db1
        [SqlValue.text chrom, SqlValue.int pos, SqlValue.text ref,
         SqlValue.text genome] = Except.ok (id2, db2) ∧
      id1 = id2 ∧
      ∀ n, 1 ≤ n →
        ((iterateLocationInsert chrom pos ref genome n db).variantLocations.countP
          (locKey chrom pos ref genome)) = 1 := by
  cases hfind : db.variantLocations.find? (locKey chrom pos ref genome) with
  | some r0 =>
    have hmem : r0 ∈ db.variantLocations := List.mem_of_find?_eq_some hfind
    have hkey : locKey chrom pos ref genome r0 = true := List.find?_some hfind
    have hpos : 0 < db.variantLocations.countP (locKey chrom pos ref genome) :=
      List.countP_pos_iff.mpr ⟨r0, hmem, hkey⟩
    have hcount : db.variantLocations.countP (locKey chrom pos ref genome) = 1 :=
      le_antisymm h hpos
    have hstep := execVariantLocationInsert_conflict db chrom pos ref genome
      r0 hfind
    refine ⟨r0.locId, db, r0.locId, db, hstep, hstep, rfl, fun n _ => ?_⟩
    rw [iterateLocationInsert_stable chrom pos ref genome db r0 hfind n]
    exact hcount
  | none =>
    have hall : ∀ a ∈ db.variantLocations, ¬ locKey chrom pos ref genome a :=
      List.find?_eq_none.mp hfind
    have hzero : db.variantLocations.countP (locKey chrom pos ref genome) = 0 :=
      List.countP_eq_zero.mpr hall
    set newRow : VariantLocationRow :=
      ⟨db.nextVariantLocationId, chrom, pos, ref, genome⟩
    have hkeyNew : locKey chrom pos ref genome newRow = true := by
      simp [locKey, newRow]
    set db1 : DB := { db with
      variantLocations := db.variantLocations ++ [newRow],
      nextVariantLocationId := db.nextVariantLocationId + 1 }
    have hstep1 := execVariantLocationInsert_new db chrom pos ref genome hfind
    have hfind1 : db1.variantLocations.find? (locKey chrom pos ref genome) =
        some newRow := by
      show (db.variantLocations ++ [newRow]).find? (locKey chrom pos ref genome) =
        some newRow
      rw [List.find?_append, hfind]
      simp [List.find?_cons, hkeyNew]
    have hstep2 := execVariantLocationInsert_conflict db1 chrom pos ref genome
      newRow hfind1
    have hid : newRow.locId = db.nextVariantLocationId := rfl
    have hcount1 : db1.variantLocations.countP (locKey chrom pos ref genome) = 1 := by
      show (db.variantLocations ++ [newRow]).countP (locKey chrom pos ref genome) = 1
      rw [List.countP_append, hzero]
      simp [List.countP_cons, hkeyNew]
    refine ⟨db.nextVariantLocationId, db1, newRow.locId, db1, hstep1, hstep2,
      hid.symm, fun n hn => ?_⟩
    obtain ⟨m, rfl⟩ : ∃ m, n = m + 1 :=
      ⟨n - 1, by omega⟩
    rw [iterateLocationInsert, hstep1]
    show ((iterateLocationInsert chrom pos ref genome m
      db1).variantLocations.countP (locKey chrom pos ref genome)) = 1
    rw [iterateLocationInsert_stable chrom pos ref genome db1 newRow hfind1 m]
    exact hcount1

/-- C3 witness: the empty database and a concrete coordinate tuple. -/
theorem location_resolution_idempotent_witness :
    emptyDB.variantLocations.countP (locKey "1" 100 "A" "GRCh38") ≤ 1 ∧
    ∃ id1 db1 id2 db2,
      execVariantLocationInsert emptyDB
        [SqlValue.text "1", SqlValue.int 100, SqlValue.text "A",
         SqlValue.text "GRCh38"] = Except.ok (id1, db1) ∧
      execVariantLocationInsert db1
        [SqlValue.text "1", SqlValue.int 100, SqlValue.text "A",
         SqlValue.text "GRCh38"] = Except.ok (id2, db2) ∧
      id1 = id2 ∧
      ∀ n, 1 ≤ n →
        ((iterateLocationInsert "1" 100 "A" "GRCh38" n
          emptyDB).variantLocations.countP (locKey "1" 100 "A" "GRCh38")) = 1 :=
  ⟨by decide,
   location_resolution_idempotent emptyDB "1" 100 "A" "GRCh38" (by decide)⟩

/-- Auxiliary: rounding at the fourth decimal place moves a value by at
most half of the last kept digit. -/
theorem pgRound4_close (q : ℚ) : |pgRound4 q - q| ≤ 1 / 20000 := by
  have key : ∀ x : ℚ,
      |((round (x * 10000) : ℤ) : ℚ) / 10000 - x| ≤ 1 / 20000 := by
    intro x
    have h1 : |((round (x * 10000) : ℤ) : ℚ) - x * 10000| ≤ 1 / 2 := by
      have h0 := abs_sub_round (x * 10000)
      rwa [abs_sub_comm] at h0
    have h2 : ((round (x * 10000) : ℤ) : ℚ) / 10000 - x =
        (((round (x * 10000) : ℤ) : ℚ) - x * 10000) / 10000 := by ring
    rw [h2, abs_div]
    have h3 : |(10000 : ℚ)| = 10000 := by norm_num
    rw [h3]
    rw [div_le_iff₀ (by norm_num : (0:ℚ) < 10000)]
    calc |((round (x * 10000) : ℤ) : ℚ) - x * 10000| ≤ 1 / 2 := h1
      _ = 1 / 20000 * 10000 := by norm_num
  rw [pgRound4]
  split
  · exact key q
  · have hx := key (-q)
    have heq : -(((round (-q * 10000) : ℤ) : ℚ) / 10000) - q =
        -((((round (-q * 10000) : ℤ) : ℚ) / 10000) - (-q)) := by ring
    rw [heq, abs_neg]
    exact hx

/-- Auxiliary: the query value at the claim's two-collection example. -/
theorem altAlleleFreq_freqExample : altAlleleFreq freqExample = 1091 / 10000 := by
  have hsum : sumAltCount freqExample / sumAlleleNumber freqExample =
      12 / 110 := by
    norm_num [sumAltCount, sumAlleleNumber, freqExample]
  have hround : round ((12 : ℚ) / 110 * 10000) = 1091 := by
    rw [round_eq, Int.floor_eq_iff]
    constructor
    · norm_num
    · norm_num
  rw [altAlleleFreq, hsum, pgRound4, if_pos (by norm_num : (0:ℚ) ≤ 12 / 110),
    hround]
  norm_num

/-- C5 counterexample: at collections (alt 10, an 100) and (alt 2,
an 10) the query layer returns ROUND(12/110, 4) = 0.1091, which is not
the exact quotient 12/110 the claim states. -/
theorem aggregation_rounding_counterexample :
    altAlleleFreq freqExample ≠ 12 / 110 ∧
    weightedRatioSpec freqExample = 12 / 110 := by
  constructor
  · rw [altAlleleFreq_freqExample]
    norm_num
  · norm_num [weightedRatioSpec, sumAltCount, sumAlleleNumber, freqExample]

/-- C5 (amended): every aggregated frequency value computed by the
query-layer SELECT expressions equals the cohort-size-weighted quotient
SUM(alternate_allele_count) / SUM(allele_number) rounded to four decimal
places (hence within 1/20000 of the exact weighted quotient), and is
never the mean of the per-collection ratios: at the claim's example the
value is 0.1091 — the rounding of 12/110 — and not the ratio mean
0.15. -/
theorem aggregation_weighted_rounded :
    (∀ rows : List FreqObs, altAlleleFreq rows =
      pgRound4 (weightedRatioSpec rows) ∧
      |altAlleleFreq rows - weightedRatioSpec rows| ≤ 1 / 20000) ∧
    altAlleleFreq freqExample = 1091 / 10000 ∧
    meanOfRatiosSpec freqExample = 3 / 20 ∧
    altAlleleFreq freqExample ≠ meanOfRatiosSpec freqExample := by
  refine ⟨fun rows => ⟨rfl, pgRound4_close _⟩, altAlleleFreq_freqExample,
    ?_, ?_⟩
  · norm_num [meanOfRatiosSpec, freqExample]
  · rw [altAlleleFreq_freqExample]
    norm_num [meanOfRatiosSpec, freqExample]

/-- Auxiliary: every message produced for a row starts with that row's
`Row N:` tag. -/
theorem validateRow_msg_tagged (n : Nat) (row : CsvRow) :
    ∀ msg ∈ validateRow n row, ∃ rest, msg = rowTag n ++ rest := by
  intro msg hmsg
  rw [validateRow] at hmsg
  split at hmsg
  · rcases List.mem_singleton.mp hmsg with rfl
    exact ⟨_, rfl⟩
  split at hmsg
  · rcases List.mem_singleton.mp hmsg with rfl
    exact ⟨_, rfl⟩
  split at hmsg
  · rcases List.mem_singleton.mp hmsg with rfl
    exact ⟨_, rfl⟩
  rw [List.mem_append, List.mem_append] at hmsg
  rcases hmsg with (hmsg | hmsg) | hmsg
  · rw [chromErrorsOf] at hmsg
    split at hmsg
    · split at hmsg
      · exact absurd hmsg (List.not_mem_nil msg)
      · rcases List.mem_singleton.mp hmsg with rfl
        exact ⟨_, rfl⟩
    · exact absurd hmsg (List.not_mem_nil msg)
  · rw [posErrorsOf] at hmsg
    split at hmsg
    · split at hmsg
      · rcases List.mem_singleton.mp hmsg with rfl
        exact ⟨_, rfl⟩
      · split at hmsg
        · rcases List.mem_singleton.mp hmsg with rfl
          exact ⟨_, rfl⟩
        · exact absurd hmsg (List.not_mem_nil msg)
    · exact absurd hmsg (List.not_mem_nil msg)
  · rw [geneErrorsOf] at hmsg
    split at hmsg
    · split at hmsg
      · rcases List.mem_singleton.mp hmsg with rfl
        exact ⟨_, rfl⟩
      · exact absurd hmsg (List.not_mem_nil msg)
    · exact absurd hmsg (List.not_mem_nil msg)

/-- Auxiliary: a row whose chromosome value falls outside the valid set
always yields at least one error. -/
theorem validateRow_ne_nil_of_bad_chrom (n : Nat) (row : CsvRow)
    (c : String) (hc : row.chromosome = some c)
    (hbad : validChromosomes.contains (pyStrip c) = false) :
    validateRow n row ≠ [] := by
  rw [validateRow]
  split
  · simp
  split
  · simp
  split
  · simp
  have hnm : pyStrip c ∉ validChromosomes := fun hmem =>
    (Bool.eq_false_iff.mp hbad) (List.elem_eq_true_of_mem hmem)
  have hchrom : chromErrorsOf n row = [msgInvalidChromosome n (pyStrip c)] := by
    simp [chromErrorsOf, hc, hnm]
  rw [hchrom]
  simp

/-- Auxiliary: a row whose start position exceeds its end position
always yields at least one error. -/
theorem validateRow_ne_nil_of_start_gt_end (n : Nat) (row : CsvRow)
    (s e : Int) (hs : row.startPos = some s) (he : row.endPos = some e)
    (hlt : e < s) : validateRow n row ≠ [] := by
  rw [validateRow]
  split
  · simp
  split
  · simp
  split
  · simp
  have hpos : posErrorsOf n row ≠ [] := by
    simp only [posErrorsOf, hs, he]
    by_cases h0 : (decide (s ≤ 0) || decide (e ≤ 0)) = true
    · rw [if_pos h0]
      simp
    · rw [if_neg h0, if_pos (show s > e by omega)]
      simp
  intro hcontra
  rw [List.append_assoc, List.append_eq_nil] at hcontra
  rw [List.append_eq_nil] at hcontra
  exact hpos hcontra.2.1

/-- Auxiliary: a gene-only row with a non-blank symbol yields no
error. -/
theorem validateRow_gene_only (n : Nat) (g : String)
    (hg : pyStrip g ≠ "") :
    validateRow n ⟨some g, none, none, none⟩ = [] := by
  rw [validateRow]
  simp only [Option.isSome_some, Option.isSome_none]
  rw [if_neg (by simp), if_neg (by simp), if_neg (by simp)]
  rw [chromErrorsOf, posErrorsOf, geneErrorsOf]
  simp [hg]

/-- Auxiliary: each row's errors all appear in the collected output of
`validate_csv_data` — rows are never skipped after an earlier row
fails. -/
theorem validateRow_sub_validate (rows : List CsvRow) (i : Nat)
    (hi : i < rows.length) :
    ∀ msg ∈ validateRow (i + 2) (rows.get ⟨i, hi⟩),
      msg ∈ validate_csv_data rows := by
  intro msg hmsg
  rw [validate_csv_data, List.mem_flatten]
  refine ⟨validateRow (i + 2) (rows.get ⟨i, hi⟩), ?_, hmsg⟩
  have hlen : i < rows.enum.length := by simpa using hi
  have hmem : (i, rows.get ⟨i, hi⟩) ∈ rows.enum := by
    have hg := List.getElem_enum rows i hlen
    have hget : rows.get ⟨i, hi⟩ = rows[i] := rfl
    rw [hget, ← hg]
    exact List.getElem_mem hlen
  have hmap := List.mem_map_of_mem
    (fun p : Nat × CsvRow => validateRow (p.1 + 2) p.2) hmem
  simpa using hmap

/-- C8: bulk-search CSV validation.  (1) A row whose chromosome value
lies outside 1-22/X/Y/MT (with or without chr prefix), such as 23,
contributes an error naming that row to the collected output.  (2) A row
supplying only a non-blank gene_symbol and no position columns is
accepted with no error.  (3) A row whose start_position exceeds its
end_position contributes an error naming that row.  (4) Every row's
errors appear in the one collected list — validation never aborts at the
first bad row. -/
theorem csv_validation_rules :
    (∀ (rows : List CsvRow) (i : Nat) (hi : i < rows.length) (c : String),
        (rows.get ⟨i, hi⟩).chromosome = some c →
        validChromosomes.contains (pyStrip c) = false →
        ∃ msg ∈ validate_csv_data rows, ∃ rest, msg = rowTag (i + 2) ++ rest) ∧
    (∀ (n : Nat) (g : String), pyStrip g ≠ "" →
        validateRow n ⟨some g, none, none, none⟩ = []) ∧
    (∀ (rows : List CsvRow) (i : Nat) (hi : i < rows.length) (s e : Int),
        (rows.get ⟨i, hi⟩).startPos = some s →
        (rows.get ⟨i, hi⟩).endPos = some e → e < s →
        ∃ msg ∈ validate_csv_data rows, ∃ rest, msg = rowTag (i + 2) ++ rest) ∧
    (∀ (rows : List CsvRow) (i : Nat) (hi : i < rows.length),
        ∀ msg ∈ validateRow (i + 2) (rows.get ⟨i, hi⟩),
          msg ∈ validate_csv_data rows) := by
  refine ⟨?_, validateRow_gene_only, ?_, validateRow_sub_validate⟩
  · intro rows i hi c hc hbad
    have hne := validateRow_ne_nil_of_bad_chrom (i + 2) (rows.get ⟨i, hi⟩)
      c hc hbad
    obtain ⟨msg, hmsg⟩ := List.exists_mem_of_ne_nil _ hne
    exact ⟨msg, validateRow_sub_validate rows i hi msg hmsg,
      validateRow_msg_tagged (i + 2) _ msg hmsg⟩
  · intro rows i hi s e hs he hlt
    have hne := validateRow_ne_nil_of_start_gt_end (i + 2)
      (rows.get ⟨i, hi⟩) s e hs he hlt
    obtain ⟨msg, hmsg⟩ := List.exists_mem_of_ne_nil _ hne
    exact ⟨msg, validateRow_sub_validate rows i hi msg hmsg,
      validateRow_msg_tagged (i + 2) _ msg hmsg⟩

/-- C8 witness: the fixture file with a chromosome-23 row (row 2), a
gene-only row, and a start-after-end row (row 4). -/
theorem csv_validation_rules_witness :
    (∃ msg ∈ validate_csv_data csvRowsExample, ∃ rest,
      msg = rowTag 2 ++ rest) ∧
    validateRow 5 ⟨some "BRCA1", none, none, none⟩ = [] ∧
    (∃ msg ∈ validate_csv_data csvRowsExample, ∃ rest,
      msg = rowTag 4 ++ rest) :=
  ⟨csv_validation_rules.1 csvRowsExample 0 (by decide) "23" rfl (by decide),
   csv_validation_rules.2.1 5 "BRCA1" (by decide),
   csv_validation_rules.2.2.1 csvRowsExample 2 (by decide) 10 5 rfl rfl
     (by decide)⟩

/-- Auxiliary: unfolding of the record loop on a successfully processed
record. -/
theorem ingestLoop_cons_ok {ρ σ ε : Type} (step : ρ → σ → Except ε σ)
    (r : ρ) (rest : List ρ) (p : Nat) (com cur s : σ)
    (h : step r cur = Except.ok s) :
    ingestLoop step (r :: rest) p ⟨com, cur⟩ =
      ingestLoop step rest (p + 1)
        (if (p + 1) % 10000 == 0 then Conn.commitTx ⟨com, s⟩
         else ⟨com, s⟩) := by
  rw [ingestLoop.eq_def]
  dsimp only
  rw [h]

/-- Auxiliary: unfolding of the record loop on a failing record — the
transaction is rolled back and the error re-raised. -/
theorem ingestLoop_cons_error {ρ σ ε : Type} (step : ρ → σ → Except ε σ)
    (r : ρ) (rest : List ρ) (p : Nat) (com cur : σ) (e : ε)
    (h : step r cur = Except.error e) :
    ingestLoop step (r :: rest) p ⟨com, cur⟩ = (⟨com, com⟩, some e) := by
  rw [ingestLoop.eq_def]
  dsimp only
  rw [h]
  rfl

/-- Auxiliary: running the record loop across a block of successfully
processed records that ends exactly at a 10,000-record commit boundary
continues the loop with the whole block present in both the committed
and the in-transaction state. -/
theorem ingestLoop_forced_block (bad : Nat) :
    ∀ m : Nat, 0 < m → m ≤ 10000 →
    ∀ (start p : Nat) (com cur ys : List Nat),
      (p + m) % 10000 = 0 → (∀ x ∈ List.range' start m, x ≠ bad) →
      ingestLoop (forcedStep bad) (List.range' start m ++ ys) p ⟨com, cur⟩ =
        ingestLoop (forcedStep bad) ys (p + m)
          ⟨cur ++ List.range' start m, cur ++ List.range' start m⟩ := by
  intro m
  induction m with
  | zero => omega
  | succ m' ih =>
    intro _ hle start p com cur ys hmod hnb
    have hsb : start ≠ bad := hnb start (by simp [List.mem_range'_1])
    have hstep : forcedStep bad start cur = Except.ok (cur ++ [start]) :=
      if_neg hsb
    rw [List.range'_succ, List.cons_append,
      ingestLoop_cons_ok (forcedStep bad) start _ p com cur _ hstep]
    rcases Nat.eq_zero_or_pos m' with rfl | hm'
    · have hmod1 : (p + 1) % 10000 = 0 := by omega
      have hc : ((p + 1) % 10000 == 0) = true := by simp [hmod1]
      rw [if_pos hc]
      simp [Conn.commitTx, List.range'_succ]
    · have hc : (p + 1) % 10000 ≠ 0 := by omega
      rw [if_neg (by simp [hc])]
      have hrec := ih hm' (by omega) (start + 1) (p + 1) com (cur ++ [start])
        ys (by omega)
        (fun x hx => hnb x (by
          simp only [List.mem_range'_1] at hx ⊢
          omega))
      rw [hrec]
      have hcat : cur ++ [start] ++ List.range' (start + 1) m' =
          cur ++ List.range' start (m' + 1) := by
        rw [List.append_assoc, List.range'_succ]
        rfl
      have hp : p + 1 + m' = p + (m' + 1) := by omega
      rw [hcat, hp, List.range'_succ]

/-- C7: the orchestrator loop commits after every 10,000 processed
records and once more at end of file; on a 25,000-record file with a
forced unrecoverable failure at record 20,001, the two full batches
(records 1-10,000 and 10,001-20,000) remain committed, every write after
record 20,000 is rolled back and absent, and the error is re-raised to
the caller.  The final conjunct checks the end-of-file commit on a short
failure-free file. -/
theorem batch_commit_boundary :
    (ingestLoop (forcedStep 20001) (List.range' 1 25000) 0
      ⟨[], []⟩).1.committed = List.range' 1 20000 ∧
    (ingestLoop (forcedStep 20001) (List.range' 1 25000) 0 ⟨[], []⟩).2 =
      some PyError.forcedFailure ∧
    (∀ x ∈ (ingestLoop (forcedStep 20001) (List.range' 1 25000) 0
      ⟨[], []⟩).1.committed, 1 ≤ x ∧ x ≤ 20000) ∧
    ingestLoop (forcedStep 0) (List.range' 1 3) 0 ⟨[], []⟩ =
      (⟨[1, 2, 3], [1, 2, 3]⟩, none) := by
  have h3 : List.range' 20001 5000 = 20001 :: List.range' 20002 4999 := by
    rw [show (5000 : Nat) = 4999 + 1 from rfl, List.range'_succ]
  have h2 := List.range'_append_1 10001 10000 5000
  norm_num at h2
  have h1 := List.range'_append_1 1 10000 15000
  norm_num at h1
  have hsplit : List.range' 1 25000 =
      List.range' 1 10000 ++ (List.range' 10001 10000 ++
        (20001 :: List.range' 20002 4999)) := by
    rw [← h1, ← h2, h3]
  have hblock1 := ingestLoop_forced_block 20001 10000 (by norm_num)
    (le_refl _) 1 0 [] []
    (List.range' 10001 10000 ++ (20001 :: List.range' 20002 4999))
    (by norm_num)
    (fun x hx => by
      simp only [List.mem_range'_1] at hx
      omega)
  have hblock2 := ingestLoop_forced_block 20001 10000 (by norm_num)
    (le_refl _) 10001 10000 (List.range' 1 10000) (List.range' 1 10000)
    (20001 :: List.range' 20002 4999)
    (by norm_num)
    (fun x hx => by
      simp only [List.mem_range'_1] at hx
      omega)
  have hcat : List.range' 1 10000 ++ List.range' 10001 10000 =
      List.range' 1 20000 := by
    have h := List.range'_append_1 1 10000 10000
    norm_num at h
    exact h
  have hfail : ingestLoop (forcedStep 20001)
      (20001 :: List.range' 20002 4999) 20000
      ⟨List.range' 1 20000, List.range' 1 20000⟩ =
      (⟨List.range' 1 20000, List.range' 1 20000⟩,
        some PyError.forcedFailure) :=
    ingestLoop_cons_error (forcedStep 20001) 20001 _ 20000 _ _
      PyError.forcedFailure (if_pos rfl)
  have hmain : ingestLoop (forcedStep 20001) (List.range' 1 25000) 0
      ⟨[], []⟩ = (⟨List.range' 1 20000, List.range' 1 20000⟩,
        some PyError.forcedFailure) := by
    rw [hsplit, hblock1]
    simp only [List.nil_append, Nat.zero_add]
    rw [hblock2]
    rw [show (10000 : Nat) + 10000 = 20000 from rfl]
    rw [hcat]
    exact hfail
  refine ⟨by rw [hmain], by rw [hmain], ?_, by decide⟩
  intro x hx
  rw [hmain] at hx
  simp only [List.mem_range'_1] at hx
  omega

end VarMT
